import Mathlib

/-!
Verification of a Conway's Game of Life implementation (`src/conways.py`).

Python strings are modelled as `List Char` (a `str` is a sequence of
characters); Python lists as `List`; code that can raise returns
`Except Err`.

The decisive feature of this source is that `Cell.__init__` takes a
required positional parameter `is_alive` with no default, and the
subclasses `Dead` and `Live` define no `__init__` of their own, so every
zero-argument call `Dead()` or `Live()` raises
`TypeError: __init__() missing 1 required positional argument: 'is_alive'`
before any object is created.  Such calls occur in `Cell.from_str` (both
branches), in `Dead.next_state` / `Live.next_state` (both branches), in
the `default=Dead()` argument of every neighbor probe inside
`count_live_neighbors`, and in the `dead_grid` comprehension.  The
embedding therefore models cell construction as a fallible operation
that always fails, and threads the resulting exceptions through parsing,
counting and the generation step.

A `Cell` value records the `is_alive` flag an object carries
(`Dead` for `False`, `Live` for `True`); such objects are constructible
in Python only through the base-class call `Cell(is_alive)`, never
through `Dead()` / `Live()`.
-/

namespace Conway

/-- The exceptions this program can raise. -/
inductive Err where
  | typeError : Err
  | indexError : Err
deriving DecidableEq

/-- Cell state: the `is_alive` flag, `Dead` (`False`) or `Live` (`True`). -/
inductive Cell where
  | Dead : Cell
  | Live : Cell
deriving DecidableEq

/-- The class attribute `string_form`: `'·'` for `Dead`, `'0'` for `Live`.
Each is a one-character string in the source, modelled as a `Char`. -/
def Cell.string_form : Cell → Char
  | Cell.Dead => '·'
  | Cell.Live => '0'

/-- The constructor call `Dead()`: `Dead` does not override
`Cell.__init__`, whose `is_alive` parameter has no default, so the
zero-argument call raises `TypeError` at argument binding, before
`__init__` runs and before any object is allocated. -/
def Dead_new : Except Err Cell := Except.error Err.typeError

/-- The constructor call `Live()`: raises `TypeError` exactly as
`Dead()` does. -/
def Live_new : Except Err Cell := Except.error Err.typeError

/-- `Cell.from_str`: `return Live() if string == Live.string_form else Dead()`.
Both branches attempt a zero-argument subclass construction, so every
character raises `TypeError`. -/
def Cell.from_str (c : Char) : Except Err Cell :=
  if c = '0' then Live_new else Dead_new

/-- `Dead.next_state` / `Live.next_state`: dead cell would become live
iff `neighbor_count == 3`, live cell would stay live iff
`neighbor_count in [2, 3]` — but every branch constructs `Live()` or
`Dead()` and therefore raises `TypeError`.  (The base `Cell.next_state`
raises `NotImplementedError` instead; neither is ever reached by
`next_generation`, whose neighbor count raises first.) -/
def Cell.next_state : Cell → Nat → Except Err Cell
  | Cell.Dead, n => if n = 3 then Live_new else Dead_new
  | Cell.Live, n => if n = 2 ∨ n = 3 then Live_new else Dead_new

/-- Left-to-right effectful list map: the evaluation order of a Python
list comprehension, stopping at the first raised exception. -/
def mapME {α β : Type} (f : α → Except Err β) : List α → Except Err (List β)
  | [] => Except.ok []
  | a :: as =>
    match f a with
    | Except.error e => Except.error e
    | Except.ok b =>
      match mapME f as with
      | Except.error e => Except.error e
      | Except.ok bs => Except.ok (b :: bs)

/-- The `GameOfLife` object: its `grid` field, a list of rows of cells.
The `height` and `width` attributes are computed from `grid` at
construction time and the grid is never reassigned, so they are
modelled as the functions `height` and `width` below. -/
structure GameOfLife where
  grid : List (List Cell)
deriving DecidableEq

/-- `self.height = len(grid)`. -/
def GameOfLife.height (g : GameOfLife) : Nat := g.grid.length

/-- `self.width = len(grid[0])`: length of the first row.  Only
meaningful after the construction-time emptiness check (see `init`). -/
def GameOfLife.width (g : GameOfLife) : Nat := (g.grid.headD []).length

/-- `GameOfLife.__init__`: evaluates `len(grid[0])`, which raises
`IndexError` when `grid` is the empty list; otherwise the object is
built. -/
def GameOfLife.init (grid : List (List Cell)) : Except Err GameOfLife :=
  if grid = [] then Except.error Err.indexError else Except.ok ⟨grid⟩

/-- `GameOfLife.dead_grid(height=h, width=w)`:
`[[Dead() for _ in range(width)] for _ in range(height)]`.
`range(n)` of a non-positive Python int is empty, hence `Int.toNat`.
The comprehension raises `TypeError` at the first `Dead()` whenever both
ranges are non-empty; it completes only when no `Dead()` is evaluated.
The source returns this raw list (it is never passed to `cls(...)`). -/
def GameOfLife.dead_grid (height width : Int) : Except Err (List (List Cell)) :=
  mapME (fun _ => mapME (fun _ => Dead_new) (List.range width.toNat))
    (List.range height.toNat)

/-- Python `str.splitlines` restricted to `'\n'` terminators (the only
line separator occurring in this program's inputs): splits at each
newline, without a trailing empty line for a trailing newline. -/
def splitlines : List Char → List (List Char)
  | [] => []
  | c :: cs =>
    if c = '\n' then [] :: splitlines cs
    else
      match splitlines cs with
      | [] => [[c]]
      | line :: rest => (c :: line) :: rest

/-- `GameOfLife.from_str`: keep the non-empty lines, map each character
through `Cell.from_str` (left to right, so the first character of the
first non-empty line raises), and hand the rows to `__init__`. -/
def GameOfLife.from_str (string : List Char) : Except Err GameOfLife :=
  let non_empty_lines := (splitlines string).filter (fun line => 0 < line.length)
  match mapME (fun line => mapME Cell.from_str line) non_empty_lines with
  | Except.error e => Except.error e
  | Except.ok parsed_grid => GameOfLife.init parsed_grid

/-- `GameOfLife.__str__`:
`'\n'.join(''.join(str(cell) for cell in row) for row in self.grid)`.
(`str(cell)` reads only `is_alive`, so it does not raise.) -/
def GameOfLife.str (g : GameOfLife) : List Char :=
  List.intercalate ['\n'] (g.grid.map (fun row => row.map Cell.string_form))

/-- `GameOfLife.get(row, col, default)`: the stored cell when
`0 <= row < height and 0 <= col < width`, else `default`.  `get` itself
raises nothing once its arguments exist; the caller in
`count_live_neighbors` raises while evaluating the `default=Dead()`
argument, before `get` is entered. -/
def GameOfLife.get (g : GameOfLife) (row col : Int) (default : Cell) : Cell :=
  if (0 ≤ row ∧ row < (g.height : Int)) ∧ (0 ≤ col ∧ col < (g.width : Int)) then
    (g.grid.getD row.toNat []).getD col.toNat default
  else default

/-- `directions_1D = (-1, 0, 1)`. -/
def directions_1D : List Int := [-1, 0, 1]

/-- `itertools.product(directions_1D, directions_1D)`. -/
def directions_2D : List (Int × Int) :=
  directions_1D.flatMap (fun a => directions_1D.map (fun b => (a, b)))

/-- The generator of the 8 neighbor coordinates of `(row, col)`:
all offset pairs except `(0, 0)`, added to the coordinate. -/
def neighbor_coords (row col : Int) : List (Int × Int) :=
  (directions_2D.filter (fun d => d ≠ (0, 0))).map (fun d => (row + d.1, col + d.2))

/-- The body of `is_coord_alive`: the call
`self.get(*coord, default=Dead())` evaluates the argument `Dead()`
first, which raises `TypeError`, so the probe never reads the grid. -/
def is_coord_alive (g : GameOfLife) (coord : Int × Int) : Except Err Nat :=
  match Dead_new with
  | Except.error e => Except.error e
  | Except.ok dflt =>
    Except.ok (if g.get coord.1 coord.2 dflt = Cell.Live then 1 else 0)

/-- `GameOfLife.count_live_neighbors`:
`sum(map(is_coord_alive, neighbor_coords))` — the first of the 8 probes
raises, so no count is ever produced. -/
def GameOfLife.count_live_neighbors (g : GameOfLife) (row col : Int) : Except Err Nat :=
  match mapME (is_coord_alive g) (neighbor_coords row col) with
  | Except.error e => Except.error e
  | Except.ok vals => Except.ok vals.sum

/-- The `next_grid` comprehension inside `next_generation`: for every
coordinated cell (the `coordinate` / `grid_with_live_neighbor_counts`
generators are inlined as `enum`), the neighbor count is evaluated when
the generator yields the pair — before `next_state` — so the first cell
of the first non-empty row raises `TypeError`.  Rows without cells
contribute `[]` without evaluating anything. -/
def GameOfLife.next_grid (g : GameOfLife) : Except Err (List (List Cell)) :=
  mapME (fun p =>
    mapME (fun q =>
      match g.count_live_neighbors (p.1 : Int) (q.1 : Int) with
      | Except.error e => Except.error e
      | Except.ok n => Cell.next_state q.2 n) p.2.enum)
    g.grid.enum

/-- `GameOfLife.next_generation`: build `next_grid`, then
`return GameOfLife(grid=next_grid)`. -/
def GameOfLife.next_generation (g : GameOfLife) : Except Err GameOfLife :=
  match g.next_grid with
  | Except.error e => Except.error e
  | Except.ok ng => GameOfLife.init ng

/-- Well-formedness per the spec's Grid invariant: non-empty, positive
width, and rectangular (every row has the width). -/
def GameOfLife.WF (g : GameOfLife) : Prop :=
  g.grid ≠ [] ∧ 0 < g.width ∧ ∀ row ∈ g.grid, row.length = g.width

instance (g : GameOfLife) : Decidable g.WF := by
  unfold GameOfLife.WF
  infer_instance

/-- The glider seed text of `glider_example`, after `dedent`: a leading
newline, six pattern rows, and a trailing newline. -/
def glider_string : List Char :=
  "\n··0····\n0·0····\n·00····\n·······\n·······\n·······\n".data

/-! ## Basic lemmas: every cell construction raises -/

theorem Cell_from_str_error (c : Char) :
    Cell.from_str c = Except.error Err.typeError := by
  unfold Cell.from_str
  split <;> rfl

theorem Cell_next_state_error (cell : Cell) (n : Nat) :
    Cell.next_state cell n = Except.error Err.typeError := by
  cases cell <;> (simp only [Cell.next_state]; split <;> rfl)

theorem is_coord_alive_error (g : GameOfLife) (coord : Int × Int) :
    is_coord_alive g coord = Except.error Err.typeError := rfl

theorem mapME_error_head {α β : Type} (f : α → Except Err β) (a : α) (as : List α) (e : Err)
    (h : f a = Except.error e) : mapME f (a :: as) = Except.error e := by
  simp [mapME, h]

theorem mapME_cons_ok_err {α β : Type} (f : α → Except Err β) (a : α) (as : List α) (b : β)
    (e : Err) (h1 : f a = Except.ok b) (h2 : mapME f as = Except.error e) :
    mapME f (a :: as) = Except.error e := by
  simp [mapME, h1, h2]

/-- Filtering `(0, 0)` out of the Cartesian square of `(-1, 0, 1)` leaves
exactly the 8 unit offsets, in iteration order. -/
theorem neighbor_offsets_eq :
    directions_2D.filter (fun d => d ≠ (0, 0)) =
      [(-1, -1), (-1, 0), (-1, 1), (0, -1), (0, 1), (1, -1), (1, 0), (1, 1)] := by
  decide

theorem count_live_neighbors_error (g : GameOfLife) (r c : Int) :
    g.count_live_neighbors r c = Except.error Err.typeError := by
  have h2 : neighbor_coords r c =
      (r + -1, c + -1) ::
        (([(-1, 0), (-1, 1), (0, -1), (0, 1), (1, -1), (1, 0), (1, 1)] :
          List (Int × Int)).map (fun d => (r + d.1, c + d.2))) := by
    unfold neighbor_coords
    rw [neighbor_offsets_eq]
    rfl
  unfold GameOfLife.count_live_neighbors
  rw [h2, mapME_error_head (is_coord_alive g) _ _ _ (is_coord_alive_error g _)]

theorem from_str_error_of_nonempty (s : List Char)
    (hne : (splitlines s).filter (fun line => 0 < line.length) ≠ []) :
    GameOfLife.from_str s = Except.error Err.typeError := by
  obtain ⟨l, rest, hL⟩ : ∃ l rest,
      (splitlines s).filter (fun line => 0 < line.length) = l :: rest := by
    cases hC : (splitlines s).filter (fun line => 0 < line.length) with
    | nil => exact absurd hC hne
    | cons a as => exact ⟨a, as, rfl⟩
  have hl : 0 < l.length := by
    have hmem : l ∈ (splitlines s).filter (fun line => 0 < line.length) := by
      rw [hL]
      exact List.mem_cons_self _ _
    simpa using (List.mem_filter.mp hmem).2
  obtain ⟨ch, cs, hlc⟩ : ∃ ch cs, l = ch :: cs := by
    cases l with
    | nil => simp at hl
    | cons ch cs => exact ⟨ch, cs, rfl⟩
  have hinner : mapME Cell.from_str (ch :: cs) = Except.error Err.typeError :=
    mapME_error_head _ _ _ _ (Cell_from_str_error ch)
  have houter : mapME (fun line => mapME Cell.from_str line) ((ch :: cs) :: rest) =
      Except.error Err.typeError :=
    mapME_error_head _ _ _ _ hinner
  simp only [GameOfLife.from_str]
  rw [hL, hlc, houter]

theorem next_grid_scan (g : GameOfLife) :
    ∀ (rows : List (List Cell)) (k : Nat), (∃ row ∈ rows, row ≠ []) →
      mapME (fun p =>
        mapME (fun q =>
          match g.count_live_neighbors (p.1 : Int) (q.1 : Int) with
          | Except.error e => Except.error e
          | Except.ok n => Cell.next_state q.2 n) p.2.enum)
        (rows.enumFrom k) = Except.error Err.typeError := by
  intro rows
  induction rows with
  | nil =>
    intro k hx
    simp at hx
  | cons r rs ih =>
    intro k hx
    have he : (r :: rs).enumFrom k = (k, r) :: rs.enumFrom (k + 1) := rfl
    rw [he]
    by_cases hr : r = []
    · have hrs : ∃ row ∈ rs, row ≠ [] := by
        obtain ⟨row, hmem, hne2⟩ := hx
        rcases List.mem_cons.mp hmem with h1 | h2
        · subst h1
          exact absurd hr hne2
        · exact ⟨row, h2, hne2⟩
      subst hr
      exact mapME_cons_ok_err _ _ _ [] _ rfl (ih (k + 1) hrs)
    · obtain ⟨ch, cs, hcc⟩ : ∃ ch cs, r = ch :: cs := by
        cases r with
        | nil => exact absurd rfl hr
        | cons ch cs => exact ⟨ch, cs, rfl⟩
      subst hcc
      refine mapME_error_head _ _ _ _ ?_
      show mapME (fun q =>
          match g.count_live_neighbors (k : Int) (q.1 : Int) with
          | Except.error e => Except.error e
          | Except.ok n => Cell.next_state q.2 n) (ch :: cs).enum =
        Except.error Err.typeError
      have he2 : (ch :: cs).enum = (0, ch) :: List.enumFrom 1 cs := rfl
      rw [he2]
      refine mapME_error_head _ _ _ _ ?_
      show (match g.count_live_neighbors (k : Int) ((0 : Nat) : Int) with
          | Except.error e => Except.error e
          | Except.ok n => Cell.next_state ch n) = Except.error Err.typeError
      rw [count_live_neighbors_error]

theorem next_grid_error (g : GameOfLife) (h : ∃ row ∈ g.grid, row ≠ []) :
    g.next_grid = Except.error Err.typeError := by
  unfold GameOfLife.next_grid
  exact next_grid_scan g g.grid 0 h

theorem next_generation_error (g : GameOfLife) (h : ∃ row ∈ g.grid, row ≠ []) :
    g.next_generation = Except.error Err.typeError := by
  unfold GameOfLife.next_generation
  rw [next_grid_error g h]

theorem wf_has_cell (g : GameOfLife) (hwf : g.WF) : ∃ row ∈ g.grid, row ≠ [] := by
  obtain ⟨hne, hw, hrect⟩ := hwf
  cases hg : g.grid with
  | nil => exact absurd hg hne
  | cons r rest =>
    refine ⟨r, List.mem_cons_self _ _, ?_⟩
    intro hr
    have hlen := hrect r (by rw [hg]; exact List.mem_cons_self _ _)
    rw [hr] at hlen
    simp at hlen
    omega

/-! ## Claim theorems -/

/-- C1 (evaluation at the failing input): on the 2-by-2 all-ALIVE grid —
where the claimed rule table predicts a stable block — `next_generation`
raises `TypeError` at the first cell's neighbor count (the
`default=Dead()` argument), so no next-generation cell is ever produced
by the rule table. -/
theorem next_generation_rule_unreachable :
    (GameOfLife.mk [[Cell.Live, Cell.Live], [Cell.Live, Cell.Live]]).next_generation =
      Except.error Err.typeError := rfl

/-- C2 (evaluation): for every grid and coordinate, the source never
computes a live-neighbor count: the first of the 8 probes evaluates
`default=Dead()`, which raises `TypeError` before anything is summed. -/
theorem count_live_neighbors_raises (g : GameOfLife) (r c : Int) :
    g.count_live_neighbors r c = Except.error Err.typeError :=
  count_live_neighbors_error g r c

/-- C2 witness: the raising count, instantiated at a concrete 1-by-1
grid and coordinate. -/
theorem count_live_neighbors_raises_witness :
    (GameOfLife.mk [[Cell.Live]]).count_live_neighbors 0 0 =
      Except.error Err.typeError :=
  count_live_neighbors_raises ⟨[[Cell.Live]]⟩ 0 0

/-- C3 (evaluation): contrary to the claim, `next_generation` never
succeeds on a well-formed grid — it raises `TypeError` at the first
cell, for every non-empty rectangular grid of positive width. -/
theorem next_generation_raises_on_wf (g : GameOfLife) (hwf : g.WF) :
    g.next_generation = Except.error Err.typeError :=
  next_generation_error g (wf_has_cell g hwf)

/-- C3 witness: the raising step on the concrete 2-by-2 all-ALIVE grid. -/
theorem next_generation_raises_on_wf_witness :
    (GameOfLife.mk [[Cell.Live, Cell.Live], [Cell.Live, Cell.Live]]).WF ∧
    (GameOfLife.mk [[Cell.Live, Cell.Live], [Cell.Live, Cell.Live]]).next_generation =
      Except.error Err.typeError :=
  ⟨by decide,
    next_generation_raises_on_wf ⟨[[Cell.Live, Cell.Live], [Cell.Live, Cell.Live]]⟩
      (by decide)⟩

/-- C4 (evaluation under the claim's hypotheses): for every well-formed
two-symbol seed text — content lines non-empty, of equal positive
length, surrounded only by blank lines — `from_str` raises `TypeError`
at the first character, so no parsed grid exists and the render round
trip never occurs. -/
theorem render_parse_round_trip_impossible (s : List Char) (L : List (List Char)) (i j : Nat)
    (hsplit : splitlines s = List.replicate i [] ++ L ++ List.replicate j [])
    (hne : L ≠ [])
    (_halpha : ∀ line ∈ L, ∀ ch ∈ line, ch = '·' ∨ ch = '0')
    (hlen : ∀ line ∈ L, line.length = (L.headD []).length)
    (hpos : 0 < (L.headD []).length) :
    GameOfLife.from_str s = Except.error Err.typeError := by
  apply from_str_error_of_nonempty
  have hfilter : (splitlines s).filter (fun line => 0 < line.length) = L := by
    rw [hsplit, List.filter_append, List.filter_append]
    rw [List.filter_replicate_of_neg (by simp), List.filter_replicate_of_neg (by simp)]
    rw [List.filter_eq_self.mpr ?_]
    · simp
    · intro line hline
      simp only [decide_eq_true_eq]
      rw [hlen line hline]
      exact hpos
  rw [hfilter]
  exact hne

/-- C4 witness: the raising parse on the concrete seed text
`"\n0·\n·0\n"`. -/
theorem render_parse_round_trip_impossible_witness :
    (splitlines ['\n', '0', '·', '\n', '·', '0', '\n'] =
      List.replicate 1 [] ++ [['0', '·'], ['·', '0']] ++ List.replicate 0 [] ∧
      ([['0', '·'], ['·', '0']] : List (List Char)) ≠ [] ∧
      (∀ line ∈ ([['0', '·'], ['·', '0']] : List (List Char)), ∀ ch ∈ line,
        ch = '·' ∨ ch = '0') ∧
      (∀ line ∈ ([['0', '·'], ['·', '0']] : List (List Char)),
        line.length = (([['0', '·'], ['·', '0']] : List (List Char)).headD []).length) ∧
      0 < (([['0', '·'], ['·', '0']] : List (List Char)).headD []).length) ∧
    GameOfLife.from_str ['\n', '0', '·', '\n', '·', '0', '\n'] =
      Except.error Err.typeError :=
  ⟨⟨by decide, by decide, by decide, by decide, by decide⟩,
    render_parse_round_trip_impossible ['\n', '0', '·', '\n', '·', '0', '\n']
      [['0', '·'], ['·', '0']] 1 0 (by decide) (by decide) (by decide) (by decide) (by decide)⟩

/-- C6 (evaluation at the failing inputs): parsing has no selective
validation at all — a seed with the unrecognized character `'x'`, a
perfectly valid two-symbol seed, and a ragged seed all fail identically
with `TypeError` at the first character, and the empty text raises
`IndexError`; no `MalformedSeed`-style failure exists in the code. -/
theorem from_str_no_validation :
    GameOfLife.from_str ['0', 'x', '\n', '0', '0'] = Except.error Err.typeError ∧
    GameOfLife.from_str ['·', '·', '\n', '·', '·'] = Except.error Err.typeError ∧
    GameOfLife.from_str ['0', '\n', '0', '0'] = Except.error Err.typeError ∧
    GameOfLife.from_str [] = Except.error Err.indexError := by
  refine ⟨rfl, rfl, rfl, rfl⟩

/-- C7 (evaluation at the failing inputs): `dead_grid` performs no
dimension validation and never raises `InvalidDimensions` — non-positive
heights silently produce the empty row list and a zero width produces
empty rows (the only comprehensions that complete), while positive
dimensions raise `TypeError` at the first `Dead()` instead of producing
an all-DEAD grid. -/
theorem dead_grid_no_validation :
    GameOfLife.dead_grid 0 3 = Except.ok [] ∧
    GameOfLife.dead_grid (-1) 2 = Except.ok [] ∧
    GameOfLife.dead_grid 2 0 = Except.ok [[], []] ∧
    GameOfLife.dead_grid 2 3 = Except.error Err.typeError := by
  refine ⟨rfl, rfl, rfl, rfl⟩

/-- C8 (evaluation at the failing input): the glider seed text of
`glider_example` cannot even be parsed — `from_str` raises `TypeError`
at the first seed character — so no generation is ever computed. -/
theorem glider_parse_raises :
    GameOfLife.from_str glider_string = Except.error Err.typeError := rfl

/-- C9 counterexample: the claim asserts that parsing the single-'0'
text succeeds with one ALIVE cell; in the code `Cell.from_str` raises
`TypeError` on `'0'` exactly as on every other character. -/
theorem from_str_single_zero_raises :
    GameOfLife.from_str ['0'] = Except.error Err.typeError := rfl

/-- C9 (amended): for every input text with at least one non-empty line,
parsing fails unconditionally on character content — `'0'` and every
other character alike make `Cell.from_str` raise `TypeError`, so no
character value ever lets parsing succeed. -/
theorem from_str_always_raises (s : List Char)
    (hne : (splitlines s).filter (fun line => 0 < line.length) ≠ []) :
    GameOfLife.from_str s = Except.error Err.typeError :=
  from_str_error_of_nonempty s hne

/-- C9 witness: the raising parse on a concrete text with characters
inside and outside the alphabet. -/
theorem from_str_always_raises_witness :
    (splitlines ['a', 'b', '\n', '0', 'Z']).filter (fun line => 0 < line.length) ≠ [] ∧
    GameOfLife.from_str ['a', 'b', '\n', '0', 'Z'] = Except.error Err.typeError :=
  ⟨by decide, from_str_always_raises ['a', 'b', '\n', '0', 'Z'] (by decide)⟩

/-- C10 (evaluation at the failing input): for the smallest positive
dimensions the all-DEAD grid cannot even be built — `dead_grid(1, 1)`
raises `TypeError` — and stepping a manually constructed 1-by-1 all-DEAD
grid also raises `TypeError`, so the code never exhibits the fixed
point. -/
theorem dead_grid_fixed_point_unreachable :
    GameOfLife.dead_grid 1 1 = Except.error Err.typeError ∧
    (GameOfLife.mk [[Cell.Dead]]).next_generation = Except.error Err.typeError := by
  refine ⟨rfl, rfl⟩

/-!
## Heap model for the mutation claim

Python `Cell` objects are mutable heap objects holding one `is_alive`
flag.  To state what `next_generation` does to its input's cells, cells
are modelled as references (indices) into an allocation-ordered heap of
`is_alive` flags; a grid is a list of rows of references.  Because every
`Dead()` / `Live()` call raises `TypeError` at argument binding — before
`Cell.__init__` runs — no allocation and no write ever happens during
`next_generation`: the run aborts at the first cell's neighbor count
(whose `default=Dead()` raises) with the heap untouched, and rows
without cells are traversed without touching the heap either. -/

structure Heap where
  cells : List Bool
deriving DecidableEq

/-- Reading a cell object's `is_alive` flag. -/
def Heap.read (h : Heap) (ref : Nat) : Bool := h.cells.getD ref false

/-- The constructor call `Dead()` at heap level: `TypeError` is raised
at argument binding, so nothing is allocated and the heap is returned
unchanged alongside the exception. -/
def heap_Dead_new (h : Heap) : Heap × Except Err Nat := (h, Except.error Err.typeError)

/-- The constructor call `Live()` at heap level: raises exactly as
`Dead()` does, without allocating. -/
def heap_Live_new (h : Heap) : Heap × Except Err Nat := (h, Except.error Err.typeError)

/-- `Dead.next_state` / `Live.next_state` on the heap: dispatch on the
receiver's flag and attempt a fresh construction — every branch raises
without allocating.  (Never reached by `next_generation`, whose neighbor
count raises first.) -/
def Heap.next_state (h : Heap) (ref : Nat) (n : Nat) : Heap × Except Err Nat :=
  if h.read ref then
    if n = 2 ∨ n = 3 then heap_Live_new h else heap_Dead_new h
  else
    if n = 3 then heap_Live_new h else heap_Dead_new h

def refHeight (grid : List (List Nat)) : Nat := grid.length

def refWidth (grid : List (List Nat)) : Nat := (grid.headD []).length

/-- `get` on a reference grid: the stored cell's flag in bounds, the
default cell's flag otherwise. -/
def refGet (h : Heap) (grid : List (List Nat)) (row col : Int) (dref : Nat) : Bool :=
  if (0 ≤ row ∧ row < (refHeight grid : Int)) ∧ (0 ≤ col ∧ col < (refWidth grid : Int)) then
    h.read ((grid.getD row.toNat []).getD col.toNat 0)
  else h.read dref

/-- Left-to-right heap-threading effectful list map: the evaluation
order of the comprehensions, stopping at the first raised exception and
carrying the heap as it stood at that moment. -/
def mapMH {α β : Type} (f : Heap → α → Heap × Except Err β) :
    Heap → List α → Heap × Except Err (List β)
  | h, [] => (h, Except.ok [])
  | h, a :: as =>
    match f h a with
    | (h1, Except.error e) => (h1, Except.error e)
    | (h1, Except.ok b) =>
      match mapMH f h1 as with
      | (h2, Except.error e) => (h2, Except.error e)
      | (h2, Except.ok bs) => (h2, Except.ok (b :: bs))

/-- One neighbor probe on the heap: `self.get(*coord, default=Dead())`
evaluates `Dead()` first, which raises before the grid is read. -/
def ref_is_coord_alive (h : Heap) (grid : List (List Nat)) (coord : Int × Int) :
    Heap × Except Err Nat :=
  match heap_Dead_new h with
  | (h1, Except.error e) => (h1, Except.error e)
  | (h1, Except.ok dref) =>
    (h1, Except.ok (if refGet h1 grid coord.1 coord.2 dref then 1 else 0))

/-- `count_live_neighbors` on the heap. -/
def refCount (h : Heap) (grid : List (List Nat)) (row col : Int) :
    Heap × Except Err Nat :=
  match mapMH (fun h1 coord => ref_is_coord_alive h1 grid coord) h
      (neighbor_coords row col) with
  | (h1, Except.error e) => (h1, Except.error e)
  | (h1, Except.ok vals) => (h1, Except.ok vals.sum)

/-- One cell of the comprehension: the neighbor count is evaluated when
the coordinated generator yields, then `next_state` would run. -/
def ref_next_cell (grid : List (List Nat)) (r : Nat) (h : Heap) (q : Nat × Nat) :
    Heap × Except Err Nat :=
  match refCount h grid (r : Int) (q.1 : Int) with
  | (h1, Except.error e) => (h1, Except.error e)
  | (h1, Except.ok n) => h1.next_state q.2 n

/-- The `next_grid` comprehension of `next_generation` on the heap.
(The `GameOfLife(grid=...)` constructor that would follow allocates no
cells; the comprehension is the only cell-touching part of the call.) -/
def next_generation_ref (h : Heap) (grid : List (List Nat)) :
    Heap × Except Err (List (List Nat)) :=
  mapMH (fun h1 p => mapMH (ref_next_cell grid p.1) h1 p.2.enum) h grid.enum

theorem mapMH_error_head {α β : Type} (f : Heap → α → Heap × Except Err β) (h : Heap)
    (a : α) (as : List α) (h1 : Heap) (e : Err) (hfa : f h a = (h1, Except.error e)) :
    mapMH f h (a :: as) = (h1, Except.error e) := by
  simp [mapMH, hfa]

theorem mapMH_cons_ok {α β : Type} (f : Heap → α → Heap × Except Err β) (h : Heap)
    (a : α) (as : List α) (h1 : Heap) (b : β) (hfa : f h a = (h1, Except.ok b)) :
    mapMH f h (a :: as) =
      match mapMH f h1 as with
      | (h2, Except.error e) => (h2, Except.error e)
      | (h2, Except.ok bs) => (h2, Except.ok (b :: bs)) := by
  simp [mapMH, hfa]

theorem ref_is_coord_alive_eq (h : Heap) (grid : List (List Nat)) (coord : Int × Int) :
    ref_is_coord_alive h grid coord = (h, Except.error Err.typeError) := rfl

theorem refCount_eq (h : Heap) (grid : List (List Nat)) (row col : Int) :
    refCount h grid row col = (h, Except.error Err.typeError) := by
  have h2 : neighbor_coords row col =
      (row + -1, col + -1) ::
        (([(-1, 0), (-1, 1), (0, -1), (0, 1), (1, -1), (1, 0), (1, 1)] :
          List (Int × Int)).map (fun d => (row + d.1, col + d.2))) := by
    unfold neighbor_coords
    rw [neighbor_offsets_eq]
    rfl
  unfold refCount
  rw [h2, mapMH_error_head (fun h1 coord => ref_is_coord_alive h1 grid coord) h
    (row + -1, col + -1) _ h Err.typeError (ref_is_coord_alive_eq h grid _)]

theorem ref_next_cell_eq (grid : List (List Nat)) (r : Nat) (h : Heap) (q : Nat × Nat) :
    ref_next_cell grid r h q = (h, Except.error Err.typeError) := by
  unfold ref_next_cell
  rw [refCount_eq]

theorem ref_row_eq (grid : List (List Nat)) (r : Nat) (h : Heap) (row : List Nat)
    (hrow : row ≠ []) :
    mapMH (ref_next_cell grid r) h row.enum = (h, Except.error Err.typeError) := by
  cases row with
  | nil => exact absurd rfl hrow
  | cons a as =>
    have he : (a :: as).enum = (0, a) :: List.enumFrom 1 as := rfl
    rw [he]
    exact mapMH_error_head _ _ _ _ _ _ (ref_next_cell_eq grid r h (0, a))

theorem ref_scan_heap (grid : List (List Nat)) :
    ∀ (rows : List (List Nat)) (k : Nat) (h : Heap),
      (mapMH (fun h1 p => mapMH (ref_next_cell grid p.1) h1 p.2.enum) h
        (rows.enumFrom k)).1 = h := by
  intro rows
  induction rows with
  | nil =>
    intro k h
    rfl
  | cons r rs ih =>
    intro k h
    have he : (r :: rs).enumFrom k = (k, r) :: rs.enumFrom (k + 1) := rfl
    rw [he]
    by_cases hr : r = []
    · subst hr
      rw [mapMH_cons_ok (fun h1 p => mapMH (ref_next_cell grid p.1) h1 p.2.enum) h
        (k, ([] : List Nat)) (rs.enumFrom (k + 1)) h [] rfl]
      have hrec := ih (k + 1) h
      rcases hp : mapMH (fun h1 p => mapMH (ref_next_cell grid p.1) h1 p.2.enum) h
          (rs.enumFrom (k + 1)) with ⟨h2, res⟩
      rw [hp] at hrec
      rw [hp]
      cases res <;> simpa using hrec
    · rw [mapMH_error_head (fun h1 p => mapMH (ref_next_cell grid p.1) h1 p.2.enum) h
        (k, r) (rs.enumFrom (k + 1)) h Err.typeError (ref_row_eq grid k h r hr)]

theorem ref_scan_err (grid : List (List Nat)) :
    ∀ (rows : List (List Nat)) (k : Nat) (h : Heap), (∃ row ∈ rows, row ≠ []) →
      (mapMH (fun h1 p => mapMH (ref_next_cell grid p.1) h1 p.2.enum) h
        (rows.enumFrom k)).2 = Except.error Err.typeError := by
  intro rows
  induction rows with
  | nil =>
    intro k h hx
    simp at hx
  | cons r rs ih =>
    intro k h hx
    have he : (r :: rs).enumFrom k = (k, r) :: rs.enumFrom (k + 1) := rfl
    rw [he]
    by_cases hr : r = []
    · have hrs : ∃ row ∈ rs, row ≠ [] := by
        obtain ⟨row, hmem, hne2⟩ := hx
        rcases List.mem_cons.mp hmem with h1 | h2
        · subst h1
          exact absurd hr hne2
        · exact ⟨row, h2, hne2⟩
      subst hr
      rw [mapMH_cons_ok (fun h1 p => mapMH (ref_next_cell grid p.1) h1 p.2.enum) h
        (k, ([] : List Nat)) (rs.enumFrom (k + 1)) h [] rfl]
      have hrec := ih (k + 1) h hrs
      rcases hp : mapMH (fun h1 p => mapMH (ref_next_cell grid p.1) h1 p.2.enum) h
          (rs.enumFrom (k + 1)) with ⟨h2, res⟩
      rw [hp] at hrec
      rw [hp]
      cases res with
      | error e => simpa using hrec
      | ok bs => simp at hrec
    · rw [mapMH_error_head (fun h1 p => mapMH (ref_next_cell grid p.1) h1 p.2.enum) h
        (k, r) (rs.enumFrom (k + 1)) h Err.typeError (ref_row_eq grid k h r hr)]

/-- C5 (evaluation): the call never mutates its input — the heap after
`next_generation`'s comprehension is exactly the heap before, so every
cell of G reads its original value — but only because the run aborts:
on any grid with at least one cell it raises `TypeError` at the first
cell, so the claimed completed call returning a newly built,
non-sharing output grid never happens. -/
theorem next_generation_ref_no_mutation (h : Heap) (grid : List (List Nat)) :
    (next_generation_ref h grid).1 = h ∧
    ((∃ row ∈ grid, row ≠ []) →
      (next_generation_ref h grid).2 = Except.error Err.typeError) := by
  constructor
  · exact ref_scan_heap grid grid 0 h
  · intro hc
    exact ref_scan_err grid grid 0 h hc

/-- C5 witness: the unchanged heap and the raising run on a concrete
2-by-2 reference grid over a 4-cell heap. -/
theorem next_generation_ref_no_mutation_witness :
    (∃ row ∈ ([[0, 1], [2, 3]] : List (List Nat)), row ≠ []) ∧
    ((next_generation_ref ⟨[true, true, false, false]⟩ [[0, 1], [2, 3]]).1 =
      Heap.mk [true, true, false, false] ∧
    (next_generation_ref ⟨[true, true, false, false]⟩ [[0, 1], [2, 3]]).2 =
      Except.error Err.typeError) :=
  ⟨by decide,
    (next_generation_ref_no_mutation ⟨[true, true, false, false]⟩ [[0, 1], [2, 3]]).1,
    (next_generation_ref_no_mutation ⟨[true, true, false, false]⟩ [[0, 1], [2, 3]]).2
      (by decide)⟩

end Conway
